import Mathlib

/-!
Shallow embedding of the patient-record dashboard (DoctorDashboard and
TopographerDashboard components): the record filter/paginate pipeline,
the scan-upload state machine, the prediction-outcome formatting and the
PDF report text.  Timestamps are modelled as seconds since the Unix
epoch (the instant denoted by the stored ISO string); a date-input value
is modelled as the day number it denotes.
-/

namespace Dashboard

/-- JS `String.prototype.includes` on character lists: `leadsWith n h`
is true when `n` is an initial segment of `h`. -/
def leadsWith : List Char → List Char → Bool
  | [], _ => true
  | _ :: _, [] => false
  | a :: as, b :: bs => a == b && leadsWith as bs

/-- `occursIn needle hay` is true when `needle` occurs contiguously in
`hay` (JS substring search). -/
def occursIn (needle : List Char) : List Char → Bool
  | [] => needle.isEmpty
  | c :: t => leadsWith needle (c :: t) || occursIn needle t

/-- JS `hay.includes(needle)` on character lists. -/
def includes (hay needle : List Char) : Bool :=
  occursIn needle hay

/-- JS `s.toLowerCase()`, as the lowercased character list. -/
def jsToLower (s : String) : List Char :=
  s.toList.map Char.toLower

/-- The patient record held in the Firestore-backed cache
(interface `PatientRecord` of DoctorDashboard).  `dateTime` is the
instant the stored ISO string denotes, in epoch seconds. -/
structure PatientRecord where
  id : String
  firstName : String
  lastName : String
  age : Nat
  gender : String
  idNumber : String
  prediction : String
  report : String
  dateTime : Nat
  imageUrl : String
deriving DecidableEq, Repr

/-- Calendar day (days since the epoch) of an instant in UTC: the day
component produced by `new Date(t).toISOString().split('T')[0]`. -/
def utcDay (t : Nat) : Nat := t / 86400

/-- Seconds offset of the IANA zone Asia/Colombo (+05:30), the
`timeZone` option passed to `toLocaleString` in `formatDateTime`. -/
def colomboOffsetSeconds : Nat := 19800

/-- Calendar day (days since the epoch) of an instant in the
Asia/Colombo zone used for display. -/
def colomboDay (t : Nat) : Nat := (t + colomboOffsetSeconds) / 86400

/-- Civil date (year, month, day) of a day number counted from
1970-01-01 (proleptic Gregorian). -/
def civilFromDays (z : Nat) : Nat × Nat × Nat :=
  let z' := z + 719468
  let era := z' / 146097
  let doe := z' % 146097
  let yoe := (doe - doe / 1460 + doe / 36524 - doe / 146096) / 365
  let doy := doe - (365 * yoe + yoe / 4 - yoe / 100)
  let mp := (5 * doy + 2) / 153
  let d := doy - (153 * mp + 2) / 5 + 1
  let m := if mp < 10 then mp + 3 else mp - 9
  let y := yoe + era * 400 + (if m ≤ 2 then 1 else 0)
  (y, m, d)

/-- Two-digit zero-padded decimal numeral. -/
def pad2 (n : Nat) : String :=
  (if n < 10 then "0" else "") ++ toString n

/-- `formatDateTime`: `new Date(t).toLocaleString("en-GB", { timeZone:
"Asia/Colombo" })`, i.e. `dd/mm/yyyy, hh:mm:ss` of the instant in the
Asia/Colombo zone. -/
def formatDateTime (t : Nat) : String :=
  let loc := t + colomboOffsetSeconds
  let ymd := civilFromDays (loc / 86400)
  let s := loc % 86400
  pad2 ymd.2.2 ++ "/" ++ pad2 ymd.2.1 ++ "/" ++ toString ymd.1 ++ ", " ++
    pad2 (s / 3600) ++ ":" ++ pad2 (s % 3600 / 60) ++ ":" ++ pad2 (s % 60)

/-- The search half of the `filteredPatients` predicate: the lowercased
search term occurs in the lowercased first name, last name or ID
number. -/
def matchesSearch (searchTerm : String) (p : PatientRecord) : Bool :=
  let searchString := jsToLower searchTerm
  includes (jsToLower p.firstName) searchString ||
    includes (jsToLower p.lastName) searchString ||
    includes (jsToLower p.idNumber) searchString

/-- The date half of the `filteredPatients` predicate: when a filter
date is supplied (a non-empty date-input value, modelled as the day it
denotes), the record's timestamp truncated to its UTC day
(`toISOString().split('T')[0]`) must equal it. -/
def matchesDate (filterDate : Option Nat) (p : PatientRecord) : Bool :=
  match filterDate with
  | none => true
  | some d => utcDay p.dateTime == d

/-- `filteredPatients`: the cached records passing both the search and
the date predicate, in source order. -/
def filteredPatients (patients : List PatientRecord) (searchTerm : String)
    (filterDate : Option Nat) : List PatientRecord :=
  patients.filter fun p => matchesSearch searchTerm p && matchesDate filterDate p

/-- `patientsPerPage` constant of DoctorDashboard. -/
def patientsPerPage : Nat := 10

/-- `totalPages = Math.ceil(filteredPatients.length / patientsPerPage)`. -/
def totalPages (filteredCount : Nat) : Nat :=
  (filteredCount + (patientsPerPage - 1)) / patientsPerPage

/-- `paginatedPatients = filteredPatients.slice((currentPage-1)*patientsPerPage,
currentPage*patientsPerPage)`; JS `slice(a, b)` keeps indices `a ≤ i < b`. -/
def paginatedPatients (filtered : List PatientRecord) (currentPage : Nat) :
    List PatientRecord :=
  (filtered.take (currentPage * patientsPerPage)).drop
    ((currentPage - 1) * patientsPerPage)

/-- Response body of the prediction endpoint (interface
`PredictionResponse`); the confidence is modelled as an exact
rational. -/
structure PredictionResponse where
  predicted_class : String
  confidence : ℚ

/-- The integer JS `x.toFixed(2)` scales by: the multiple of 1/100
nearest to `x`, ties away from zero for nonnegative `x`. -/
def toFixed2Num (x : ℚ) : ℤ := ⌊x * 100 + 1 / 2⌋

/-- JS `x.toFixed(2)` for nonnegative `x`: exact decimal rendering with
two fraction digits. -/
def toFixed2 (x : ℚ) : String :=
  let n := toFixed2Num x
  toString (n / 100) ++ "." ++ pad2 (n % 100).toNat

/-- The outcome string built in `handleUpload` on a successful
classification response:
`Result: ${data.predicted_class}\nAccuracy: ${(data.confidence*100).toFixed(2)}%`. -/
def predictionText (data : PredictionResponse) : String :=
  let accuracyPercentage := toFixed2 (data.confidence * 100)
  "Result: " ++ data.predicted_class ++ "\n" ++
    "Accuracy: " ++ accuracyPercentage ++ "%"

/-- The React state of DoctorDashboard that the record browser and the
follow-up upload flow read and write.  Files and object URLs are opaque
and modelled by identifying strings. -/
structure DashboardState where
  patients : List PatientRecord
  loading : Bool
  searchTerm : String
  selectedPatient : Option PatientRecord
  filterDate : Option Nat
  currentPage : Nat
  selectedFile : Option String
  previewUrl : Option String
  isUploading : Bool
  error : Option String
  prediction : Option String
deriving DecidableEq

/-- `handleViewDetails(patient)`: selects the record and clears the
follow-up upload session (file, preview, prediction, error). -/
def handleViewDetails (patient : PatientRecord) (s : DashboardState) :
    DashboardState :=
  { s with
    selectedPatient := some patient
    selectedFile := none
    previewUrl := none
    prediction := none
    error := none }

/-- The synchronous prefix of `handleUpload` up to its suspension at the
fetch: bails out when no file is selected, otherwise marks the upload in
flight and clears the error. -/
def handleUploadBegin (s : DashboardState) : DashboardState :=
  match s.selectedFile with
  | none => s
  | some _ => { s with isUploading := true, error := none }

/-- Resumption of `handleUpload` when the fetch resolved with an `ok`
response: stores the formatted outcome and ends the in-flight marker
(`finally`). -/
def handleUploadSuccess (data : PredictionResponse) (s : DashboardState) :
    DashboardState :=
  { s with prediction := some (predictionText data), isUploading := false }

/-- Resumption of `handleUpload` when the fetch rejected or the response
was not `ok` (`catch` plus `finally`): records the message, clears the
outcome, ends the in-flight marker. -/
def handleUploadFailure (message : String) (s : DashboardState) :
    DashboardState :=
  { s with error := some message, prediction := none, isUploading := false }

/-- Clicking the process button: its `onClick` is
`isUploading ? undefined : handleUpload` and it carries
`disabled={isUploading}`, so while an upload is in flight the click does
nothing; otherwise it runs `handleUpload` up to the suspension. -/
def processButtonClick (s : DashboardState) : DashboardState :=
  if s.isUploading then s else handleUploadBegin s

/-- A patient document as it actually comes back from the record store:
the Firestore data is cast unchecked, so every field may be absent.
`generatePDF` guards some fields (`patient.age !== undefined`) and
interpolates others raw. -/
structure StoredPatient where
  firstName : Option String
  lastName : Option String
  age : Option Nat
  gender : Option String
  idNumber : Option String
  prediction : Option String
  report : Option String
  dateTime : Option Nat
  imageUrl : Option String
deriving DecidableEq

/-- JS template interpolation of a possibly-undefined string value. -/
def jsShow : Option String → String
  | none => "undefined"
  | some s => s

/-- JS template interpolation of a possibly-undefined number value. -/
def jsShowNat : Option Nat → String
  | none => "undefined"
  | some n => toString n

/-- JS `v || "N/A"`: the fallback fires on `undefined` and on the empty
string (both falsy). -/
def orNA : Option String → String
  | none => "N/A"
  | some s => if s = "" then "N/A" else s

/-- JS whitespace test for the characters that occur here. -/
def isWS (c : Char) : Bool :=
  c == ' ' || c == '\n' || c == '\t' || c == '\r'

/-- JS `s.trim()` on a character list. -/
def jsTrim (l : List Char) : List Char :=
  ((l.dropWhile isWS).reverse.dropWhile isWS).reverse

/-- JS `s.split('\n')` on a character list. -/
def splitLines : List Char → List (List Char)
  | [] => [[]]
  | c :: t =>
    match splitLines t with
    | [] => [[]]
    | h :: r => if c = '\n' then [] :: h :: r else (c :: h) :: r

/-- The text content of the report `generatePDF` builds, in document
order: the patient-information lines, the AI-analysis lines, the
medical-report text, and the name of the saved file. -/
structure PDFReport where
  infoLines : List String
  analysisLines : List String
  reportText : String
  fileName : String
deriving DecidableEq

/-- `generatePDF(patient)` restricted to its text content.  Of the
defensively defaulted locals the source computes, only `idNumber` (file
name) and `prediction` (analysis lines) flow into the document; the
other defaulted locals (`fullName`, `age`, `gender`, `formattedDate`)
reach only a `console.log`, and the patient-information block
interpolates the raw fields instead, exactly as the source does. -/
def generatePDF (patient : StoredPatient) : PDFReport :=
  let idNumber := orNA patient.idNumber
  let prediction := match patient.prediction with
    | none => "N/A"
    | some s => if s = "" then "N/A" else String.mk (jsTrim s.toList)
  let predictionLines :=
    (splitLines prediction.toList).filter fun line => !(jsTrim line).isEmpty
  { infoLines :=
      [ "Name: " ++ jsShow patient.firstName ++ " " ++ jsShow patient.lastName
      , "ID Number: " ++ jsShow patient.idNumber
      , "Age: " ++ jsShowNat patient.age
      , "Gender: " ++ jsShow patient.gender
      , "Date: " ++ (match patient.dateTime with
          | some t => formatDateTime t
          | none => "Invalid Date") ]
    analysisLines := predictionLines.map String.mk
    reportText := jsShow patient.report
    fileName := "medical_report_" ++ idNumber ++ ".pdf" }

/-- A concrete cached record: Alice Smith, created at epoch second
70000 (1970-01-01T19:26:40Z, which is already 1970-01-02 in the
Asia/Colombo display zone). -/
def aliceRecord : PatientRecord :=
  ⟨"1", "Alice", "Smith", 30, "female", "P001", "Result: Normal", "r", 70000, "img"⟩

/-- A concrete cached record whose name and ID fields contain no
whitespace. -/
def bobRecord : PatientRecord :=
  ⟨"2", "Bob", "Jones", 45, "male", "B7", "Result: Normal", "r", 100, "img"⟩

/-- A dashboard state with no file selected and no upload in flight. -/
def idleState : DashboardState :=
  ⟨[aliceRecord, bobRecord], false, "", none, none, 1, none, none, false, none, none⟩

/-- A dashboard state with a selected file and an upload in flight. -/
def classifyingState : DashboardState :=
  ⟨[aliceRecord, bobRecord], false, "", some aliceRecord, none, 1,
    some "scan.jpg", some "blob:1", true, none, none⟩

theorem leadsWith_iff (n h : List Char) : leadsWith n h = true ↔ n <+: h := by
  induction n generalizing h with
  | nil => simp [leadsWith]
  | cons a as ih =>
    cases h with
    | nil => simp [leadsWith]
    | cons b bs =>
      simp [leadsWith, List.cons_prefix_cons, ih, Bool.and_eq_true, beq_iff_eq]

theorem occursIn_iff (n h : List Char) : occursIn n h = true ↔ n <:+: h := by
  induction h with
  | nil => simp [occursIn, List.isEmpty_iff]
  | cons c t ih =>
    rw [occursIn]
    simp [Bool.or_eq_true, leadsWith_iff, ih, List.infix_cons_iff]

theorem matchesSearch_iff (st : String) (p : PatientRecord) :
    matchesSearch st p = true ↔
      (jsToLower st <:+: jsToLower p.firstName ∨
        jsToLower st <:+: jsToLower p.lastName ∨
        jsToLower st <:+: jsToLower p.idNumber) := by
  simp [matchesSearch, includes, occursIn_iff, Bool.or_eq_true, or_assoc]

theorem mem_filteredPatients (ps : List PatientRecord) (st : String)
    (fd : Option Nat) (p : PatientRecord) :
    p ∈ filteredPatients ps st fd ↔
      p ∈ ps ∧ matchesSearch st p = true ∧ matchesDate fd p = true := by
  simp [filteredPatients, List.mem_filter, Bool.and_eq_true]

theorem matchesSearch_empty (p : PatientRecord) : matchesSearch "" p = true := by
  rw [matchesSearch_iff]
  have h : jsToLower "" = ([] : List Char) := rfl
  rw [h]
  simp

theorem toFixed2_eq (x : ℚ) :
    toFixed2 x =
      toString (toFixed2Num x / 100) ++ "." ++ pad2 (toFixed2Num x % 100).toNat :=
  rfl

/-- C1 (counterexample): with pageSize 10 and 0 filtered records the
code's page count is `Math.ceil(0/10) = 0`, not the claimed minimum of
1. -/
theorem c1_counterexample_zero_page_count :
    totalPages (filteredPatients [] "" none).length = 0 ∧
      totalPages (filteredPatients [] "" none).length ≠ 1 := by
  decide

/-- C1 (amended): the page count is exactly `ceil(count/pageSize)` with
no 1-page minimum, so 0 filtered records give page count 0; the current
page contents on an empty filtered set are the empty sequence, and
requesting a page beyond the last valid page yields the empty sequence
without error. -/
theorem c1_page_count_and_clamping :
    ∀ (l : List PatientRecord) (page : Nat),
      l.length ≤ totalPages l.length * patientsPerPage ∧
      totalPages l.length * patientsPerPage < l.length + patientsPerPage ∧
      (l = [] → paginatedPatients l page = []) ∧
      (totalPages l.length < page → paginatedPatients l page = []) := by
  intro l page
  refine ⟨?_, ?_, ?_, ?_⟩
  · simp only [totalPages, patientsPerPage]; omega
  · simp only [totalPages, patientsPerPage]; omega
  · rintro rfl; simp [paginatedPatients]
  · intro hp
    have hlen : (l.take (page * patientsPerPage)).length ≤
        (page - 1) * patientsPerPage := by
      simp only [List.length_take, totalPages, patientsPerPage] at *
      omega
    exact List.drop_eq_nil_of_le hlen

/-- C1 (witness): the amended statement applied to the empty record set
at page 1 and at page 5, discharging both conditional parts. -/
theorem c1_page_count_and_clamping_witness :
    paginatedPatients [] 1 = [] ∧ paginatedPatients [] 5 = [] :=
  ⟨(c1_page_count_and_clamping [] 1).2.2.1 rfl,
    (c1_page_count_and_clamping [] 5).2.2.2 (by decide)⟩

/-- C2 (counterexample): `aliceRecord` was created at an instant whose
calendar day in the Asia/Colombo display zone (the day `formatDateTime`
shows) is day 1 (1970-01-02), yet filtering for day 1 drops it, because
the filter truncates the timestamp to its UTC day via `toISOString`.
The claim, which says the filter day equals the display-zone day, is
therefore false at this input. -/
theorem c2_counterexample_display_zone_day :
    colomboDay aliceRecord.dateTime = 1 ∧
      formatDateTime aliceRecord.dateTime = "02/01/1970, 00:56:40" ∧
      utcDay aliceRecord.dateTime = 0 ∧
      filteredPatients [aliceRecord] "" (some 1) = [] := by
  decide

/-- C2 (amended): a record matches the date filter iff its creation
timestamp truncated to its UTC calendar day — not the Asia/Colombo day
used for display — equals the supplied day. -/
theorem c2_date_filter_uses_utc_day :
    ∀ (ps : List PatientRecord) (st : String) (d : Nat) (p : PatientRecord),
      p ∈ filteredPatients ps st (some d) ↔
        p ∈ ps ∧ matchesSearch st p = true ∧ utcDay p.dateTime = d := by
  intro ps st d p
  rw [mem_filteredPatients]
  simp [matchesDate]

/-- C3: on a successful classification response the outcome string is
`Result: <label>\nAccuracy: <confidence*100 to two decimals>%`, where
the two-decimal value is the conventional rounding of `confidence*100`
(`toFixed2Num` agrees with `round`); in particular the response with
label `Keratoconus` and confidence 0.9977 yields
`Result: Keratoconus\nAccuracy: 99.77%`. -/
theorem c3_outcome_string_format :
    (∀ data : PredictionResponse,
      0 ≤ data.confidence → data.confidence ≤ 1 →
        predictionText data =
          "Result: " ++ data.predicted_class ++ "\n" ++
            "Accuracy: " ++ toFixed2 (data.confidence * 100) ++ "%" ∧
        toFixed2Num (data.confidence * 100) =
          round (data.confidence * 100 * 100)) ∧
    predictionText ⟨"Keratoconus", 9977 / 10000⟩ =
      "Result: Keratoconus\nAccuracy: 99.77%" := by
  constructor
  · intro data _ _
    refine ⟨rfl, ?_⟩
    rw [toFixed2Num, round_eq]
  · have hnum : toFixed2Num ((9977 / 10000 : ℚ) * 100) = 9977 := by
      have h : ((9977 / 10000 : ℚ) * 100) * 100 + 1 / 2 =
          ((19955 : ℤ) : ℚ) / ((2 : ℕ) : ℚ) := by norm_num
      rw [toFixed2Num, h, Rat.floor_intCast_div_natCast]
      norm_num
    have hfix : toFixed2 ((9977 / 10000 : ℚ) * 100) = "99.77" := by
      rw [toFixed2_eq, hnum]
      decide
    show "Result: " ++ "Keratoconus" ++ "\n" ++
        "Accuracy: " ++ toFixed2 ((9977 / 10000 : ℚ) * 100) ++ "%" = _
    rw [hfix]
    decide

/-- C3 (witness): the general format statement applied to a concrete
response with confidence 1/2. -/
theorem c3_outcome_string_format_witness :
    predictionText ⟨"Normal", 1 / 2⟩ =
      "Result: " ++ "Normal" ++ "\n" ++
        "Accuracy: " ++ toFixed2 ((1 / 2 : ℚ) * 100) ++ "%" ∧
    toFixed2Num ((1 / 2 : ℚ) * 100) = round ((1 / 2 : ℚ) * 100 * 100) :=
  c3_outcome_string_format.1 ⟨"Normal", 1 / 2⟩ (by norm_num) (by norm_num)

/-- C4: a record is in the filtered result iff it is in the cache, the
lowercased search text occurs as a contiguous substring of the
lowercased first name, last name or ID number (logical OR), and the
date predicate holds; absent predicates (empty search text, no filter
date) hold vacuously; the result is a sublist of the cache (source
order, no re-sort); and on the record set [Alice Smith, Bob Jones] the
text "smi" matches only Alice's record. -/
theorem c4_filter_matching_rule :
    (∀ (ps : List PatientRecord) (st : String) (fd : Option Nat)
        (p : PatientRecord),
      p ∈ filteredPatients ps st fd ↔
        p ∈ ps ∧
          (jsToLower st <:+: jsToLower p.firstName ∨
            jsToLower st <:+: jsToLower p.lastName ∨
            jsToLower st <:+: jsToLower p.idNumber) ∧
          matchesDate fd p = true) ∧
    (∀ ps st fd, (filteredPatients ps st fd).Sublist ps) ∧
    (∀ p : PatientRecord, matchesSearch "" p = true ∧ matchesDate none p = true) ∧
    filteredPatients [aliceRecord, bobRecord] "smi" none = [aliceRecord] := by
  refine ⟨?_, ?_, ?_, ?_⟩
  · intro ps st fd p
    rw [mem_filteredPatients, matchesSearch_iff]
  · intro ps st fd
    exact List.filter_sublist ps
  · intro p
    exact ⟨matchesSearch_empty p, rfl⟩
  · decide

/-- C5: clicking the process button with no selected file (Idle) or
while an upload is already in flight (Classifying) changes nothing, and
from FileSelected with no upload in flight it only marks the upload in
flight and clears the error — so at most one classification call is
started per flow instance and classify is effective only from
FileSelected. -/
theorem c5_classify_only_from_file_selected :
    ∀ s : DashboardState,
      (s.selectedFile = none → processButtonClick s = s) ∧
      (s.isUploading = true → processButtonClick s = s) ∧
      (∀ f, s.selectedFile = some f → s.isUploading = false →
        processButtonClick s = { s with isUploading := true, error := none }) := by
  intro s
  refine ⟨?_, ?_, ?_⟩
  · intro h
    simp [processButtonClick, handleUploadBegin, h]
  · intro h
    simp [processButtonClick, h]
  · intro f hf hu
    simp [processButtonClick, handleUploadBegin, hf, hu]

/-- C5 (witness): the no-op statements applied to a concrete idle state
and a concrete classifying state. -/
theorem c5_classify_only_from_file_selected_witness :
    processButtonClick idleState = idleState ∧
      processButtonClick classifyingState = classifyingState :=
  ⟨(c5_classify_only_from_file_selected idleState).1 rfl,
    (c5_classify_only_from_file_selected classifyingState).2.1 rfl⟩

/-- C6: evaluating `generatePDF` on a stored document with every field
absent: the patient-information block renders `undefined` (and
`Invalid Date`), not the claimed `N/A` placeholder — only the analysis
lines and the file name receive the defensively defaulted `N/A`. -/
theorem c6_missing_fields_render_undefined :
    generatePDF ⟨none, none, none, none, none, none, none, none, none⟩ =
      ⟨["Name: undefined undefined", "ID Number: undefined", "Age: undefined",
        "Gender: undefined", "Date: Invalid Date"],
        ["N/A"], "undefined", "medical_report_N/A.pdf"⟩ := by
  decide

/-- C7: when the classification call fails, the handler records the
message, clears the outcome and ends the in-flight marker, while the
selected file and the preview locator are left unchanged — the flow is
back in FileSelected with a visible error and no retry is issued. -/
theorem c7_failure_back_to_file_selected :
    ∀ (s : DashboardState) (message : String),
      (handleUploadFailure message s).error = some message ∧
      (handleUploadFailure message s).prediction = none ∧
      (handleUploadFailure message s).isUploading = false ∧
      (handleUploadFailure message s).selectedFile = s.selectedFile ∧
      (handleUploadFailure message s).previewUrl = s.previewUrl := by
  intro s message
  exact ⟨rfl, rfl, rfl, rfl, rfl⟩

/-- C8 (counterexample): the whitespace search text " " does not match
`bobRecord`, whose lowercased name and ID fields contain no space, so a
whitespace-only filter text does not match every record. -/
theorem c8_counterexample_whitespace_drops_record :
    filteredPatients [bobRecord] " " none ≠ [bobRecord] := by
  decide

/-- C8 (amended): a whitespace-only filter text is compared literally
(no trimming): a record matches iff the whitespace string occurs as a
substring of one of the three lowercased fields, and a record such as
`bobRecord` with no whitespace in those fields does not match. -/
theorem c8_whitespace_text_is_literal :
    (∀ (ps : List PatientRecord) (fd : Option Nat) (p : PatientRecord),
      p ∈ filteredPatients ps " " fd ↔
        p ∈ ps ∧
          (jsToLower " " <:+: jsToLower p.firstName ∨
            jsToLower " " <:+: jsToLower p.lastName ∨
            jsToLower " " <:+: jsToLower p.idNumber) ∧
          matchesDate fd p = true) ∧
    matchesSearch " " bobRecord = false := by
  constructor
  · intro ps fd p
    rw [mem_filteredPatients, matchesSearch_iff]
  · decide

/-- C9: the filter is idempotent: filtering an already filtered record
set with the same predicates returns it unchanged. -/
theorem c9_filter_idempotent :
    ∀ (ps : List PatientRecord) (st : String) (fd : Option Nat),
      filteredPatients (filteredPatients ps st fd) st fd =
        filteredPatients ps st fd := by
  intro ps st fd
  simp [filteredPatients, List.filter_filter]

/-- C10: viewing a record's details selects it and discards the
in-progress follow-up upload session (file, preview, outcome, error),
while the cached record set, the loading flag, the search term, the
date filter, the current page and the in-flight marker all stay
unchanged. -/
theorem c10_view_details_clears_session_only :
    ∀ (p : PatientRecord) (s : DashboardState),
      (handleViewDetails p s).selectedPatient = some p ∧
      (handleViewDetails p s).selectedFile = none ∧
      (handleViewDetails p s).previewUrl = none ∧
      (handleViewDetails p s).prediction = none ∧
      (handleViewDetails p s).error = none ∧
      (handleViewDetails p s).patients = s.patients ∧
      (handleViewDetails p s).loading = s.loading ∧
      (handleViewDetails p s).searchTerm = s.searchTerm ∧
      (handleViewDetails p s).filterDate = s.filterDate ∧
      (handleViewDetails p s).currentPage = s.currentPage ∧
      (handleViewDetails p s).isUploading = s.isUploading := by
  intro p s
  exact ⟨rfl, rfl, rfl, rfl, rfl, rfl, rfl, rfl, rfl, rfl, rfl⟩

end Dashboard
